import Mathlib

/-!
Verification of larch (a one-shot Arch Linux installer, src/larch.py with
its configuration module src/config.py) against its natural-language
specification.

The program is a linear pipeline of external-command invocations.  We embed
it shallowly: every externally visible action (spawned program, shell line,
HTTP fetch, file write) becomes an `Event`, and each pipeline phase becomes
a function from an execution state (the list of events issued so far) to a
new state paired with an optional propagated error.  Whether each external
command succeeds is supplied by an oracle `ok : Nat → Bool`, consulted at
the index of the command in the event trace, which lets us quantify over
all failure points of a run.  Python exceptions become the `Option PError`
component: a raised error short-circuits the rest of a sequence, exactly as
an uncaught exception does in the source.

Byte strings of the source (the HTTP response body in generate_mirrors) are
modelled as `String` for their content; the response body itself is a
parameter (the list of raw lines of the response, each still carrying its
line terminator, as iterating the response object yields them in the
source).  The byte/text distinction is still observed where it changes
control flow: generate_mirrors returns bytes and usb_main passes that value
to echo, whose what + newline concatenation of bytes with a text string
raises a TypeError under Python 3 before the file redirect runs — the
mirror-list write therefore never happens, and this is modelled by a
typeError failure at that step.  Shell quoting of the audit line
(shlex.quote) is elided: it affects only the text stored in the
CommandFailure message, never control flow or the event trace.
-/

namespace Larch

/-- Stdin wiring of a spawned command: set_cmd_defaults in the source routes
stdin to the null device unless an input text is supplied, in which case the
text is piped to the child. -/
inductive StdinMode where
  | devnull
  | piped (text : String)
deriving DecidableEq, Repr

/-- One externally visible action of the pipeline. -/
inductive Event where
  /-- subprocess.run with an argument vector (never shell-interpreted). -/
  | run (args : List String) (stdin : StdinMode)
  /-- subprocess.run through the shell; check records whether a non-zero
  exit status raises (check=True) or is suppressed (check=False). -/
  | shell (command : String) (check : Bool)
  /-- os.mkdir. -/
  | mkdir (path : String)
  /-- CommandOutput.__gt__: overwrite the file at path with content. -/
  | write_file (path : String) (content : String)
  /-- CommandOutput.__rshift__: append to the file at path. -/
  | append_file (path : String)
  /-- urllib.request.urlopen of the mirrorlist generation endpoint,
  parameterized by the country query parameter. -/
  | mirrorlist_fetch (country : String)
deriving DecidableEq, Repr

/-- Errors propagating out of the pipeline (Python exceptions). -/
inductive PError where
  | commandFailure (command : String)
  | systemExit (message : String)
  | assertionError
  | unsupportedFilesystem (fs : String)
  | networkError
  /-- a Python TypeError, raised when echo concatenates the bytes value
  returned by generate_mirrors with its text newline. -/
  | typeError
deriving DecidableEq, Repr

/-- Execution state: the trace of events issued so far. -/
structure ExecState where
  trace : List Event
deriving DecidableEq, Repr

/-- A pipeline fragment: extends the trace and either completes (none) or
raises an error (some e), as the corresponding Python block does. -/
abbrev M := ExecState → ExecState × Option PError

/-- A block with no external action. -/
def skipM : M := fun s => (s, none)

/-- Raising an exception. -/
def failM (e : PError) : M := fun s => (s, some e)

/-- An action that always succeeds (pure side effect such as a file write). -/
def emit (e : Event) : M := fun s => ({ trace := s.trace ++ [e] }, none)

/-- An external action that may fail: the success oracle is consulted at the
index this event occupies in the trace; on failure the given error is
raised.  The event is recorded either way, since the external command did
run before its exit status was observed. -/
def checkedWith (e : Event) (err : PError) (ok : Nat → Bool) : M := fun s =>
  if ok s.trace.length then ({ trace := s.trace ++ [e] }, none)
  else ({ trace := s.trace ++ [e] }, some err)

/-- Sequencing: the second block runs only if the first did not raise. -/
def seqM (a b : M) : M := fun s =>
  match a s with
  | (s', none) => b s'
  | (s', some e) => (s', some e)

/-- Rewriting the error of a block (a Python except clause). -/
def mapErrM (f : PError → PError) (m : M) : M := fun s =>
  match m s with
  | (s', none) => (s', none)
  | (s', some e) => (s', some (f e))

/-- The run helper of the source: argument-vector command, stdin defaulted
to the null device, CommandFailure on non-zero exit. -/
def runM (args : List String) (ok : Nat → Bool) : M :=
  checkedWith (.run args .devnull) (.commandFailure (" ".intercalate args)) ok

/-- run with an input= keyword: the text is piped to the child. -/
def runPipedM (args : List String) (text : String) (ok : Nat → Bool) : M :=
  checkedWith (.run args (.piped text)) (.commandFailure (" ".intercalate args)) ok

/-- The shell helper of the source with check=True (the default). -/
def shellM (command : String) (ok : Nat → Bool) : M :=
  checkedWith (.shell command true) (.commandFailure command) ok

/-- shell(..., check=False): the command runs but a non-zero exit status is
suppressed, so this block never raises. -/
def shellNoCheckM (command : String) : M := emit (.shell command false)

/-- urlopen of the mirrorlist endpoint: a network failure raises an error
that is not a CommandFailure. -/
def fetchMirrors (country : String) (ok : Nat → Bool) : M :=
  checkedWith (.mirrorlist_fetch country) .networkError ok

/-!  Direct translations of the pure helpers of src/larch.py.  -/

/-- CommandOutput: captured text that can be redirected to a file. -/
structure CommandOutput where
  str : String
deriving DecidableEq, Repr

/-- echo(what): returns a CommandOutput of the text with a newline
appended, simulating the echo command (src/larch.py lines 110-117). -/
def echo (what : String) : CommandOutput := ⟨what ++ "\n"⟩

/-- The normalization loop of generate_mirrors (src/larch.py lines
132-137): each response line that starts with a comment marker loses its
first character; other lines pass through; lines are collected in order. -/
def generate_mirrors_lines : List String → List String
  | [] => []
  | line :: rest =>
      (if line.startsWith "#" then line.drop 1 else line) ::
        generate_mirrors_lines rest

/-- The value generate_mirrors returns: the normalized lines joined with no
separator (each line still carries its own terminator). -/
def generate_mirrors (body : List String) : String :=
  String.join (generate_mirrors_lines body)

/-- Substring occurrence on character lists, the semantics of the Python
expression pat in s for strings: some suffix of s starts with pat. -/
def substrOccurs (pat : List Char) : List Char → Bool
  | [] => pat.isEmpty
  | c :: rest => pat.isPrefixOf (c :: rest) || substrOccurs pat rest

/-- part(disk, partnum) (src/larch.py lines 141-144): the partition device
path; a p separator is inserted when the literal substring nvme occurs in
the disk path. -/
def part (disk : String) (partnum : Nat) : String :=
  if substrOccurs "nvme".toList disk.toList then
    disk ++ "p" ++ toString partnum
  else
    disk ++ toString partnum

/-- The configuration module (src/config.py): the fields read by any part
of the program, plus the mirror-strategy fields it declares. -/
structure Config where
  mirrorlist : String
  mirror_country : String
  mirror_static : String
  disk : String
  root_password : Option String
  use_uefi : Bool
  root_filesystem : String
  hostname : Option String
  timezone : String
  packages : List String
  services : List String
deriving DecidableEq, Repr

/-!  The host phase (usb_main, src/larch.py lines 147-231).  -/

/-- The command line of the sgdisk invocation of usb_main, built exactly as
the f-string at lines 174-178 concatenates it. -/
def sgdiskCommand (disk boot_size boot_typecode : String) : String :=
  "sgdisk " ++ disk ++ " --zap-all --clear --new=1:0:+" ++ boot_size ++
    " --typecode=1:" ++ boot_typecode ++ " --largest-new=2 --typecode=2:8304"

/-- The checks of usb_main before any destructive command: the assert that
the disk is not the FIXME placeholder (line 156), then, in UEFI mode, the
efibootmgr probe whose CommandFailure is converted to a SystemExit with a
guidance message (lines 158-164). -/
def preflight (cfg : Config) (ok : Nat → Bool) : M :=
  if cfg.disk = "FIXME" then failM .assertionError
  else if cfg.use_uefi then
    mapErrM
      (fun e =>
        match e with
        | .commandFailure _ =>
            .systemExit
              "UEFI is disabled or unsupported\nPlease enable it or set USE_UEFI to False"
        | e => e)
      (runM ["efibootmgr"] ok)
  else skipM

/-- The root-filesystem format dispatch of usb_main (lines 184-194): one of
four formatting tools, or an exception for an unrecognized kind, raised
without running any further command. -/
def formatRoot (cfg : Config) (ok : Nat → Bool) : M :=
  if cfg.root_filesystem = "btrfs" then
    runM ["mkfs.btrfs", "-f", part cfg.disk 2] ok
  else if cfg.root_filesystem = "ext4" then
    runM ["mkfs.ext4", "-F", part cfg.disk 2] ok
  else if cfg.root_filesystem = "xfs" then
    runM ["mkfs.xfs", "-f", part cfg.disk 2] ok
  else if cfg.root_filesystem = "f2fs" then
    runM ["mkfs.f2fs", "-f", part cfg.disk 2] ok
  else
    failM (.unsupportedFilesystem cfg.root_filesystem)

/-- Partitioning and formatting (usb_main lines 166-194): wipe signatures,
write the partition table, re-probe it, format the boot partition in UEFI
mode, then dispatch on the root filesystem kind. -/
def provision (cfg : Config) (ok : Nat → Bool) : M :=
  seqM (runM ["wipefs", "--all", cfg.disk] ok)
  (seqM
    (shellM
      (sgdiskCommand cfg.disk (if cfg.use_uefi then "1G" else "1M")
        (if cfg.use_uefi then "ef00" else "ef02"))
      ok)
  (seqM (runM ["partprobe", cfg.disk] ok)
  (seqM
    (if cfg.use_uefi then runM ["mkfs.fat", "-F32", part cfg.disk 1] ok
     else skipM)
  (formatRoot cfg ok))))

/-- The body of the try block of usb_main (lines 196-228): mount the target
hierarchy, then the mirror step, line 204.  There generate_mirrors() runs
(the fetch, which may itself fail with a network error) and returns bytes,
and echo applied to that bytes value raises a TypeError (bytes concatenated
with a text newline) before the redirect to /etc/pacman.d/mirrorlist runs:
the mirror-list file is never written, and the remaining steps of the try
block — package bootstrap, fstab append, hostname write, the bind mounts
of the installer and the handoff into the isolated-root phase, translated
below as the source spells them — are unreachable under Python 3.  The
response body is therefore dead to the rest of the run. -/
def hostTry (cfg : Config) (ok : Nat → Bool) (_body : List String) : M :=
  seqM (runM ["mount", part cfg.disk 2, "/mnt"] ok)
  (seqM
    (if cfg.use_uefi then
      seqM (emit (.mkdir "/mnt/boot")) (runM ["mount", part cfg.disk 1, "/mnt/boot"] ok)
     else skipM)
  (seqM (fetchMirrors "TW" ok)
  (seqM (failM .typeError)
  (seqM (runM ("pacstrap" :: "/mnt" :: cfg.packages) ok)
  (seqM (shellM "genfstab -U /mnt" ok)
  (seqM (emit (.append_file "/mnt/etc/fstab"))
  (seqM
    (match cfg.hostname with
     | some h => emit (.write_file "/mnt/etc/hostname" (echo h).str)
     | none => skipM)
  (seqM (runM ["mount", "--bind", "larch.py", "/mnt/root/larch.py"] ok)
  (seqM (runM ["mount", "--bind", "config.py", "/mnt/root/config.py"] ok)
  (shellM "arch-chroot /mnt python /root/install.py --chroot" ok))))))))))

/-- The finally clause of usb_main (lines 229-231): a recursive unmount of
the staging path, issued with check=False so its own failure is
suppressed. -/
def cleanupEvent : Event := .shell "umount -R /mnt" false

/-- The part of the host phase that runs before the try block: the
preflight checks, then partitioning and formatting. -/
def hostPre (cfg : Config) (ok : Nat → Bool) : M :=
  seqM (preflight cfg ok) (provision cfg ok)

/-- usb_main (src/larch.py lines 147-231).  The preflight checks and the
partition/format sequence run outside the try block; only once control
reaches the try block does the finally clause guarantee the cleanup
unmount, which is appended unconditionally and never changes the error
being propagated. -/
def usb_main (cfg : Config) (ok : Nat → Bool) (body : List String) :
    ExecState × Option PError :=
  let pre := hostPre cfg ok ⟨[]⟩
  if pre.2.isSome then pre
  else
    let r := hostTry cfg ok body pre.1
    (⟨r.1.trace ++ [cleanupEvent]⟩, r.2)

/-!  The isolated-root phase (chroot_main, src/larch.py lines 234-267).  -/

/-- The root-credential step (lines 250-254): passwd with the default stdin
wiring when no password is configured, otherwise chpasswd with the
credential line piped in. -/
def passwordStep (cfg : Config) (ok : Nat → Bool) : M :=
  match cfg.root_password with
  | none => runM ["passwd"] ok
  | some pw => runPipedM ["chpasswd"] ("root:" ++ pw) ok

/-- The bootloader installation (lines 256-266): the UEFI variant through
the shell, the legacy variant against the raw disk device. -/
def bootloaderStep (cfg : Config) (ok : Nat → Bool) : M :=
  if cfg.use_uefi then
    shellM "grub-install --target=x86_64-efi --efi-directory=/boot --bootloader-id=arch" ok
  else
    runM ["grub-install", "--target=i386-pc", cfg.disk] ok

/-- The step sequence of chroot_main (src/larch.py lines 234-267):
timezone link, locale files and generation, service enablement, initramfs,
root credential, bootloader and its configuration. -/
def chrootPipeline (cfg : Config) (ok : Nat → Bool) : M :=
  seqM (shellM "ln -sf /usr/share/zoneinfo/Asia/Taipei /etc/localtime" ok)
  (seqM (emit (.write_file "/etc/locale.conf" (echo "LANG=en_US.UTF-8").str))
  (seqM (emit (.write_file "/etc/locale.gen" (echo "en_US.UTF-8 UTF-8").str))
  (seqM (shellM "locale-gen" ok)
  (seqM (runM ("systemctl" :: "enable" :: cfg.services) ok)
  (seqM (shellM "mkinitcpio -p linux" ok)
  (seqM (passwordStep cfg ok)
  (seqM (bootloaderStep cfg ok)
  (shellM "grub-mkconfig -o /boot/grub/grub.cfg" ok))))))))

/-- chroot_main: the isolated-root phase runs its pipeline in a fresh
process, so from an empty trace. -/
def chroot_main (cfg : Config) (ok : Nat → Bool) : ExecState × Option PError :=
  chrootPipeline cfg ok ⟨[]⟩

/-!  Trace accounting: counting the events of a trace that satisfy a
predicate, and pipeline fragments that append no such event.  -/

/-- Number of events of a trace satisfying a predicate. -/
def countEv (p : Event → Bool) (t : List Event) : Nat := (t.filter p).length

/-- A pipeline fragment only appends events, none satisfying p. -/
def emitsNone (p : Event → Bool) (m : M) : Prop :=
  ∀ s : ExecState, ∃ l : List Event,
    ((m s).1).trace = s.trace ++ l ∧ ∀ e ∈ l, p e = false

/-!  Predicates over events used by the claims.  -/

/-- The cleanup obligation: a shell command issued with failure-checking
suppressed whose text is the recursive unmount of the staging path. -/
def isCleanup : Event → Bool
  | .shell c false => c == "umount -R /mnt"
  | _ => false

/-- A root-filesystem formatting command: an argument-vector invocation of
one of the four filesystem-specific formatting tools. -/
def isRootFormat : Event → Bool
  | .run (name :: _) _ =>
      name == "mkfs.btrfs" || name == "mkfs.ext4" ||
        name == "mkfs.xfs" || name == "mkfs.f2fs"
  | _ => false

/-- A file overwrite whose content does not end with a newline. -/
def badContent : Event → Bool
  | .write_file _ c => !(c.data.getLast? == some '\n')
  | _ => false

/-- The device path ends in a decimal digit (the naming pattern the spec
calls NVMe-style). -/
def endsInDigit (s : String) : Bool :=
  match s.toList.getLast? with
  | some c => c.isDigit
  | none => false

/-- The per-line normalization rule as the spec words it: one leading
comment marker removed, other lines unchanged. -/
def norm_line (l : String) : String :=
  if l.startsWith "#" then l.drop 1 else l

/-- Stdin wiring of the passwd invocation of a trace, when present. -/
def passwd_stdin (t : List Event) : Option StdinMode :=
  t.findSome? fun e =>
    match e with
    | .run ["passwd"] st => some st
    | _ => none

/-!  Success oracles and concrete configurations used as inputs.  -/

/-- Every external command succeeds. -/
def okAll : Nat → Bool := fun _ => true

/-- Every external command fails. -/
def okNone : Nat → Bool := fun _ => false

/-- A configuration with the default values of src/config.py, except that
the disk is set to a real device (the sample sets it to the placeholder
last) and the package list is abbreviated. -/
def baseCfg : Config where
  mirrorlist := "generator"
  mirror_country := "TW"
  mirror_static := "http://10.88.88.49/archlinux/$repo/os/$arch"
  disk := "/dev/sda"
  root_password := none
  use_uefi := true
  root_filesystem := "xfs"
  hostname := none
  timezone := "Asia/Taipei"
  packages := ["base", "grub", "python"]
  services := ["systemd-timesyncd"]

def cfgLegacyExt4 : Config :=
  { baseCfg with use_uefi := false, root_filesystem := "ext4" }

theorem countEv_append (p : Event → Bool) (t u : List Event) :
    countEv p (t ++ u) = countEv p t + countEv p u := by
  simp [countEv, List.filter_append]

theorem countEv_eq_zero (p : Event → Bool) (t : List Event)
    (h : ∀ e ∈ t, p e = false) : countEv p t = 0 := by
  induction t with
  | nil => rfl
  | cons e t ih =>
      have he : p e = false := h e (by simp)
      have ht : countEv p t = 0 := ih fun x hx => h x (by simp [hx])
      simp [countEv, List.filter_cons, he] at *
      exact ht


theorem emitsNone_skipM (p : Event → Bool) : emitsNone p skipM :=
  fun s => ⟨[], by simp [skipM]⟩

theorem emitsNone_failM (p : Event → Bool) (e : PError) : emitsNone p (failM e) :=
  fun s => ⟨[], by simp [failM]⟩

theorem emitsNone_emit (p : Event → Bool) (e : Event) (h : p e = false) :
    emitsNone p (emit e) :=
  fun s => ⟨[e], by simp [emit, h]⟩

theorem emitsNone_checkedWith (p : Event → Bool) (e : Event) (err : PError)
    (ok : Nat → Bool) (h : p e = false) : emitsNone p (checkedWith e err ok) := by
  intro s
  refine ⟨[e], ?_, by simp [h]⟩
  unfold checkedWith
  split <;> rfl

theorem emitsNone_seqM (p : Event → Bool) (a b : M)
    (ha : emitsNone p a) (hb : emitsNone p b) : emitsNone p (seqM a b) := by
  intro s
  obtain ⟨la, hta, hpa⟩ := ha s
  rcases hab : a s with ⟨s', e⟩
  rw [hab] at hta
  cases e with
  | none =>
      obtain ⟨lb, htb, hpb⟩ := hb s'
      refine ⟨la ++ lb, ?_, ?_⟩
      · simp only [seqM, hab]
        rw [htb, hta, List.append_assoc]
      · intro x hx
        rcases List.mem_append.mp hx with h1 | h2
        · exact hpa x h1
        · exact hpb x h2
  | some err =>
      refine ⟨la, ?_, hpa⟩
      simp only [seqM, hab]
      exact hta

theorem emitsNone_mapErrM (p : Event → Bool) (f : PError → PError) (m : M)
    (h : emitsNone p m) : emitsNone p (mapErrM f m) := by
  intro s
  obtain ⟨l, ht, hp⟩ := h s
  rcases hm : m s with ⟨s', e⟩
  rw [hm] at ht
  refine ⟨l, ?_, hp⟩
  cases e <;> simp only [mapErrM, hm] <;> exact ht

theorem emitsNone_if (p : Event → Bool) (c : Prop) [Decidable c] (a b : M)
    (ha : emitsNone p a) (hb : emitsNone p b) :
    emitsNone p (if c then a else b) := by
  by_cases h : c
  · simpa [h] using ha
  · simpa [h] using hb

theorem countEv_of_emitsNone (p : Event → Bool) (m : M) (h : emitsNone p m)
    (s : ExecState) : countEv p ((m s).1).trace = countEv p s.trace := by
  obtain ⟨l, ht, hp⟩ := h s
  rw [ht, countEv_append, countEv_eq_zero p l hp, Nat.add_zero]

theorem eq_false_of_countEv_zero (p : Event → Bool) (t : List Event)
    (h : countEv p t = 0) {e : Event} (he : e ∈ t) : p e = false := by
  cases hpe : p e
  · rfl
  · exfalso
    have hmem : e ∈ t.filter p := List.mem_filter.mpr ⟨he, hpe⟩
    have hnil : t.filter p = [] := List.length_eq_zero.mp h
    rw [hnil] at hmem
    exact absurd hmem (List.not_mem_nil e)

theorem seqM_err (a b : M) (s0 s : ExecState) (err : PError)
    (h : a s0 = (s, some err)) : seqM a b s0 = (s, some err) := by
  simp [seqM, h]

theorem seqM_ok (a b : M) (s0 s : ExecState)
    (h : a s0 = (s, none)) : seqM a b s0 = b s := by
  simp [seqM, h]


/-!  Facts about echo used to discharge badContent side conditions.  -/

theorem echo_data (x : String) : ((echo x).str).data = x.data ++ ['\n'] := rfl

theorem getLast?_append_singleton {α : Type} (l : List α) (a : α) :
    (l ++ [a]).getLast? = some a := by
  rw [List.getLast?_append_cons]
  rfl

theorem echo_getLast (x : String) : ((echo x).str).data.getLast? = some '\n' := by
  rw [echo_data]
  exact getLast?_append_singleton x.data '\n'

theorem badContent_echo (path x : String) :
    badContent (.write_file path (echo x).str) = false := by
  simp [badContent, echo_getLast]


def cfgUefiZfs : Config := { baseCfg with root_filesystem := "zfs" }

def cfgFixme : Config := { baseCfg with disk := "FIXME" }

def cfgStaticMirror : Config :=
  { baseCfg with mirrorlist := "static", mirror_country := "DE",
                 use_uefi := false, root_filesystem := "ext4" }

def cfgParis : Config := { baseCfg with timezone := "Europe/Paris" }

def cfgPw : Config := { baseCfg with root_password := some "hunter2" }

def cfgHostname : Config :=
  { baseCfg with hostname := some "myhost", use_uefi := false,
                 root_filesystem := "ext4" }

/-!  The pipeline fragments issue no cleanup unmount: the only check=False
shell command of the whole program is the finally clause of usb_main.  -/

theorem emitsNone_cleanup_preflight (cfg : Config) (ok : Nat → Bool) :
    emitsNone isCleanup (preflight cfg ok) := by
  unfold preflight runM
  repeat'
    first
    | apply emitsNone_seqM
    | apply emitsNone_if
    | apply emitsNone_mapErrM
    | apply emitsNone_checkedWith
    | apply emitsNone_emit
    | apply emitsNone_skipM
    | apply emitsNone_failM
    | rfl

theorem emitsNone_cleanup_provision (cfg : Config) (ok : Nat → Bool) :
    emitsNone isCleanup (provision cfg ok) := by
  unfold provision formatRoot runM shellM
  repeat'
    first
    | apply emitsNone_seqM
    | apply emitsNone_if
    | apply emitsNone_mapErrM
    | apply emitsNone_checkedWith
    | apply emitsNone_emit
    | apply emitsNone_skipM
    | apply emitsNone_failM
    | rfl

theorem emitsNone_cleanup_hostPre (cfg : Config) (ok : Nat → Bool) :
    emitsNone isCleanup (hostPre cfg ok) := by
  unfold hostPre
  exact emitsNone_seqM _ _ _ (emitsNone_cleanup_preflight cfg ok)
    (emitsNone_cleanup_provision cfg ok)

theorem emitsNone_cleanup_hostTry (cfg : Config) (ok : Nat → Bool) (body : List String) :
    emitsNone isCleanup (hostTry cfg ok body) := by
  unfold hostTry runM shellM fetchMirrors
  cases cfg.hostname <;>
    repeat'
      first
      | apply emitsNone_seqM
      | apply emitsNone_if
      | apply emitsNone_mapErrM
      | apply emitsNone_checkedWith
      | apply emitsNone_emit
      | apply emitsNone_skipM
      | apply emitsNone_failM
      | rfl

theorem countEv_cleanup_single : countEv isCleanup [cleanupEvent] = 1 := by decide

/-!  No pipeline fragment issues a root-filesystem formatting command,
apart from the format dispatch itself when the kind is supported.  -/

theorem emitsNone_rootFormat_preflight (cfg : Config) (ok : Nat → Bool) :
    emitsNone isRootFormat (preflight cfg ok) := by
  unfold preflight runM
  repeat'
    first
    | apply emitsNone_seqM
    | apply emitsNone_if
    | apply emitsNone_mapErrM
    | apply emitsNone_checkedWith
    | apply emitsNone_emit
    | apply emitsNone_skipM
    | apply emitsNone_failM
    | rfl

theorem emitsNone_rootFormat_provision (cfg : Config) (ok : Nat → Bool)
    (h1 : cfg.root_filesystem ≠ "btrfs") (h2 : cfg.root_filesystem ≠ "ext4")
    (h3 : cfg.root_filesystem ≠ "xfs") (h4 : cfg.root_filesystem ≠ "f2fs") :
    emitsNone isRootFormat (provision cfg ok) := by
  unfold provision formatRoot runM shellM
  rw [if_neg h1, if_neg h2, if_neg h3, if_neg h4]
  repeat'
    first
    | apply emitsNone_seqM
    | apply emitsNone_if
    | apply emitsNone_mapErrM
    | apply emitsNone_checkedWith
    | apply emitsNone_emit
    | apply emitsNone_skipM
    | apply emitsNone_failM
    | rfl

theorem emitsNone_rootFormat_hostTry (cfg : Config) (ok : Nat → Bool) (body : List String) :
    emitsNone isRootFormat (hostTry cfg ok body) := by
  unfold hostTry runM shellM fetchMirrors
  cases cfg.hostname <;>
    repeat'
      first
      | apply emitsNone_seqM
      | apply emitsNone_if
      | apply emitsNone_mapErrM
      | apply emitsNone_checkedWith
      | apply emitsNone_emit
      | apply emitsNone_skipM
      | apply emitsNone_failM
      | rfl

/-!  Every file overwrite of the program goes through echo, so its content
ends with the appended newline.  -/

theorem emitsNone_badContent_preflight (cfg : Config) (ok : Nat → Bool) :
    emitsNone badContent (preflight cfg ok) := by
  unfold preflight runM
  repeat'
    first
    | apply emitsNone_seqM
    | apply emitsNone_if
    | apply emitsNone_mapErrM
    | apply emitsNone_checkedWith
    | apply emitsNone_emit
    | apply emitsNone_skipM
    | apply emitsNone_failM
    | exact badContent_echo _ _
    | rfl

theorem emitsNone_badContent_provision (cfg : Config) (ok : Nat → Bool) :
    emitsNone badContent (provision cfg ok) := by
  unfold provision formatRoot runM shellM
  repeat'
    first
    | apply emitsNone_seqM
    | apply emitsNone_if
    | apply emitsNone_mapErrM
    | apply emitsNone_checkedWith
    | apply emitsNone_emit
    | apply emitsNone_skipM
    | apply emitsNone_failM
    | exact badContent_echo _ _
    | rfl

theorem emitsNone_badContent_hostTry (cfg : Config) (ok : Nat → Bool) (body : List String) :
    emitsNone badContent (hostTry cfg ok body) := by
  unfold hostTry runM shellM fetchMirrors
  cases cfg.hostname <;>
    repeat'
      first
      | apply emitsNone_seqM
      | apply emitsNone_if
      | apply emitsNone_mapErrM
      | apply emitsNone_checkedWith
      | apply emitsNone_emit
      | apply emitsNone_skipM
      | apply emitsNone_failM
      | exact badContent_echo _ _
      | rfl

theorem emitsNone_badContent_chrootPipeline (cfg : Config) (ok : Nat → Bool) :
    emitsNone badContent (chrootPipeline cfg ok) := by
  unfold chrootPipeline passwordStep bootloaderStep runM runPipedM shellM
  cases cfg.root_password <;>
    repeat'
      first
      | apply emitsNone_seqM
      | apply emitsNone_if
      | apply emitsNone_mapErrM
      | apply emitsNone_checkedWith
      | apply emitsNone_emit
      | apply emitsNone_skipM
      | apply emitsNone_failM
      | exact badContent_echo _ _
      | rfl

/-!  Counting events over a whole host-phase run.  -/

theorem usb_main_countEv_zero (p : Event → Bool) (cfg : Config) (ok : Nat → Bool)
    (body : List String)
    (hpre : emitsNone p (hostPre cfg ok))
    (htry : emitsNone p (hostTry cfg ok body))
    (hcl : p cleanupEvent = false) :
    countEv p ((usb_main cfg ok body).1).trace = 0 := by
  have hc0 : countEv p ((hostPre cfg ok ⟨[]⟩).1).trace = 0 := by
    have h := countEv_of_emitsNone _ _ hpre ⟨[]⟩
    simpa [countEv] using h
  rcases hres : hostPre cfg ok ⟨[]⟩ with ⟨s, e⟩
  rw [hres] at hc0
  cases e with
  | some err =>
      have hu : usb_main cfg ok body = (s, some err) := by simp [usb_main, hres]
      rw [hu]
      exact hc0
  | none =>
      have hu : usb_main cfg ok body =
          (⟨((hostTry cfg ok body s).1).trace ++ [cleanupEvent]⟩, (hostTry cfg ok body s).2) := by
        simp [usb_main, hres]
      have htc : countEv p ((hostTry cfg ok body s).1).trace = 0 := by
        rw [countEv_of_emitsNone _ _ htry s]
        exact hc0
      rw [hu]
      show countEv p (((hostTry cfg ok body s).1).trace ++ [cleanupEvent]) = 0
      rw [countEv_append, htc]
      simp [countEv, List.filter_cons, hcl]

/-- With every external command succeeding and the preflight checks
passing, the pre-try part of the host phase of an unsupported-filesystem
configuration terminates in the unsupported-filesystem error. -/
theorem hostPre_unsupported_err (cfg : Config) (ok : Nat → Bool)
    (hok : ∀ i, ok i = true) (hd : cfg.disk ≠ "FIXME")
    (h1 : cfg.root_filesystem ≠ "btrfs") (h2 : cfg.root_filesystem ≠ "ext4")
    (h3 : cfg.root_filesystem ≠ "xfs") (h4 : cfg.root_filesystem ≠ "f2fs") :
    (hostPre cfg ok ⟨[]⟩).2 = some (.unsupportedFilesystem cfg.root_filesystem) := by
  cases hu : cfg.use_uefi <;>
    simp [hostPre, seqM, preflight, provision, formatRoot, runM, shellM, checkedWith,
          mapErrM, skipM, failM, emit, hok, hd, h1, h2, h3, h4, hu]

/-!  The claims.  -/

/-- C1, counterexample.  The claim says the recursive unmount cleanup runs
exactly once per host-phase run even when a step fails during provisioning
or formatting.  On a legacy configuration in which the very first external
command (wipefs, during provisioning) fails, the run propagates that
CommandFailure and the trace contains no cleanup unmount at all: the
try/finally of usb_main begins only at the mount step, so the cleanup is
not issued for failures before it. -/
theorem C1_counterexample :
    ¬ countEv isCleanup ((usb_main cfgLegacyExt4 okNone []).1).trace = 1 ∧
    (usb_main cfgLegacyExt4 okNone []).2 =
      some (.commandFailure "wipefs --all /dev/sda") := by decide

/-- C1, amended.  For every configuration, success oracle and response
body: the cleanup unmount (a check-suppressed recursive unmount of the
staging path) is issued exactly once when the pre-try part of the host
phase (preflight checks, partitioning, formatting) completes without
error — that is, on every exit path from the mount step onward, normal or
failing — and zero times when a step before the mount fails; and the error
usb_main propagates is exactly the error of the pipeline itself (preflight,
then provisioning, then the try body), so the suppressed cleanup never
masks or replaces it. -/
theorem C1_thm (cfg : Config) (ok : Nat → Bool) (body : List String) :
    countEv isCleanup ((usb_main cfg ok body).1).trace =
      (if (hostPre cfg ok ⟨[]⟩).2 = none then 1 else 0) ∧
    (usb_main cfg ok body).2 =
      ((seqM (hostPre cfg ok) (hostTry cfg ok body)) ⟨[]⟩).2 := by
  have hpre : emitsNone isCleanup (hostPre cfg ok) := emitsNone_cleanup_hostPre cfg ok
  have htry := emitsNone_cleanup_hostTry cfg ok body
  have hc0 : countEv isCleanup ((hostPre cfg ok ⟨[]⟩).1).trace = 0 := by
    have h := countEv_of_emitsNone _ _ hpre ⟨[]⟩
    simpa [countEv] using h
  rcases hres : hostPre cfg ok ⟨[]⟩ with ⟨s, e⟩
  rw [hres] at hc0
  cases e with
  | some err =>
      have hu : usb_main cfg ok body = (s, some err) := by simp [usb_main, hres]
      have ho := seqM_err (hostPre cfg ok) (hostTry cfg ok body) ⟨[]⟩ s err hres
      rw [hu, ho]
      exact ⟨by simpa using hc0, rfl⟩
  | none =>
      have hu : usb_main cfg ok body =
          (⟨((hostTry cfg ok body s).1).trace ++ [cleanupEvent]⟩, (hostTry cfg ok body s).2) := by
        simp [usb_main, hres]
      have ho := seqM_ok (hostPre cfg ok) (hostTry cfg ok body) ⟨[]⟩ s hres
      have htc : countEv isCleanup ((hostTry cfg ok body s).1).trace = 0 := by
        rw [countEv_of_emitsNone _ _ htry s]
        exact hc0
      rw [hu, ho]
      refine ⟨?_, rfl⟩
      show countEv isCleanup (((hostTry cfg ok body s).1).trace ++ [cleanupEvent]) = _
      rw [countEv_append, htc, countEv_cleanup_single]
      simp

/-- C2, counterexample.  The claim says the configuration error for an
unsupported root filesystem is raised before any formatting command,
including the FAT32 boot format in UEFI mode.  On a UEFI configuration
whose root filesystem is zfs and all commands succeeding, the trace of the
run contains the FAT32 format of the boot partition even though the run
ends in the unsupported-filesystem error: in the source the mkfs.fat call
(line 183) precedes the dispatch that raises (line 193). -/
theorem C2_counterexample :
    Event.run ["mkfs.fat", "-F32", "/dev/sda1"] .devnull ∈
      ((usb_main cfgUefiZfs okAll []).1).trace ∧
    (usb_main cfgUefiZfs okAll []).2 = some (.unsupportedFilesystem "zfs") := by decide

/-- C2, amended.  For every configuration whose root filesystem kind is
outside the supported enumeration: no root-filesystem formatting command
(mkfs.btrfs, mkfs.ext4, mkfs.xfs or mkfs.f2fs) ever appears in the trace of
the run, and when the disk is not the placeholder and every prior external
command succeeds, the run terminates with the unsupported-filesystem
configuration error — but, per the counterexample, in UEFI mode the FAT32
format of the boot partition has already been invoked before the error. -/
theorem C2_thm (cfg : Config) (ok : Nat → Bool) (body : List String)
    (hfs : cfg.root_filesystem ∉ (["btrfs", "ext4", "xfs", "f2fs"] : List String)) :
    countEv isRootFormat ((usb_main cfg ok body).1).trace = 0 ∧
    (cfg.disk ≠ "FIXME" → (∀ i, ok i = true) →
      (usb_main cfg ok body).2 = some (.unsupportedFilesystem cfg.root_filesystem)) := by
  have h1 : cfg.root_filesystem ≠ "btrfs" := fun h => hfs (by simp [h])
  have h2 : cfg.root_filesystem ≠ "ext4" := fun h => hfs (by simp [h])
  have h3 : cfg.root_filesystem ≠ "xfs" := fun h => hfs (by simp [h])
  have h4 : cfg.root_filesystem ≠ "f2fs" := fun h => hfs (by simp [h])
  constructor
  · refine usb_main_countEv_zero isRootFormat cfg ok body ?_ ?_ rfl
    · unfold hostPre
      exact emitsNone_seqM _ _ _ (emitsNone_rootFormat_preflight cfg ok)
        (emitsNone_rootFormat_provision cfg ok h1 h2 h3 h4)
    · exact emitsNone_rootFormat_hostTry cfg ok body
  · intro hd hok
    have herr := hostPre_unsupported_err cfg ok hok hd h1 h2 h3 h4
    simp [usb_main, herr]

/-- C2, witness: the amended theorem applied to the UEFI zfs configuration
with every command succeeding. -/
theorem C2_witness :
    countEv isRootFormat ((usb_main cfgUefiZfs okAll []).1).trace = 0 ∧
    (usb_main cfgUefiZfs okAll []).2 = some (.unsupportedFilesystem "zfs") := by
  have h := C2_thm cfgUefiZfs okAll [] (by decide)
  exact ⟨h.1, h.2 (by decide) (fun i => rfl)⟩

/-- C3, counterexample.  The claim says every device path ending in a digit
gets the p separator.  The path /dev/mmcblk0 ends in a digit, yet part
appends the partition number directly, because the source tests for the
substring nvme, not for a trailing digit. -/
theorem C3_counterexample :
    endsInDigit "/dev/mmcblk0" = true ∧
    part "/dev/mmcblk0" 2 = "/dev/mmcblk02" ∧
    part "/dev/mmcblk0" 2 ≠ "/dev/mmcblk0" ++ "p" ++ toString 2 := by decide

/-- C3, amended.  Partition path construction inserts the p separator
exactly when the literal substring nvme occurs in the device path; for
every other device path (even one ending in a digit) the partition number
is appended directly. -/
theorem C3_thm (disk : String) (n : Nat) :
    (substrOccurs "nvme".toList disk.toList = true →
      part disk n = disk ++ "p" ++ toString n) ∧
    (substrOccurs "nvme".toList disk.toList = false →
      part disk n = disk ++ toString n) := by
  constructor <;> intro h <;> simp only [part] <;> rw [h] <;> simp

/-- C3, witness: the amended theorem applied to an NVMe device path. -/
theorem C3_witness :
    substrOccurs "nvme".toList "/dev/nvme0n1".toList = true ∧
    part "/dev/nvme0n1" 2 = "/dev/nvme0n1" ++ "p" ++ toString 2 :=
  ⟨by decide, (C3_thm "/dev/nvme0n1" 2).1 (by decide)⟩

/-- C4.  For every configuration whose disk equals the placeholder
sentinel FIXME, the host phase issues no event at all — no partitioning,
formatting or mount command — and terminates with the assertion error of
the sentinel check, before step 1 of provisioning. -/
theorem C4_thm (cfg : Config) (ok : Nat → Bool) (body : List String)
    (h : cfg.disk = "FIXME") :
    usb_main cfg ok body = (⟨[]⟩, some .assertionError) := by
  simp [usb_main, hostPre, seqM, preflight, failM, h]

/-- C4, witness: the theorem applied to a concrete placeholder
configuration. -/
theorem C4_witness :
    cfgFixme.disk = "FIXME" ∧
    usb_main cfgFixme okAll [] = (⟨[]⟩, some .assertionError) :=
  ⟨by decide, C4_thm cfgFixme okAll [] (by decide)⟩

/-- C5 (code bug).  With the mirror strategy configured as static (and a
mirror country of DE), a host-phase run with every external command
succeeding still performs the mirror-list fetch — parameterized by the
hard-coded country TW, not the configured one: usb_main (line 204) calls
generate_mirrors() unconditionally and never reads the mirrorlist,
mirror_static or mirror_country configuration fields, contradicting the
documented static strategy of src/config.py lines 5-14.  The run then ends
in the TypeError of the echo step, so no mirror list — fetched or static —
is ever written. -/
theorem C5_thm :
    cfgStaticMirror.mirrorlist = "static" ∧
    cfgStaticMirror.mirror_country = "DE" ∧
    Event.mirrorlist_fetch "TW" ∈ ((usb_main cfgStaticMirror okAll []).1).trace ∧
    (usb_main cfgStaticMirror okAll []).2 = some .typeError := by decide

/-- C6 (code bug).  With the timezone configured as Europe/Paris, the first
action of the isolated-root phase is still the hard-coded link of
/etc/localtime to Asia/Taipei: chroot_main (line 237) never reads the
timezone configuration field declared at src/config.py line 42. -/
theorem C6_thm :
    cfgParis.timezone = "Europe/Paris" ∧
    ((chroot_main cfgParis okAll).1).trace.head? =
      some (.shell "ln -sf /usr/share/zoneinfo/Asia/Taipei /etc/localtime" true) := by decide

/-- C7, counterexample.  The claim says that with no root password
configured the password tool is run so that it can read the operator input.
On the default configuration (root_password unset) the passwd invocation of
the isolated-root phase carries the devnull stdin mode: set_cmd_defaults
(lines 51-52) routes the child stdin to the null device whenever no input
text is supplied, so passwd cannot read anything from its standard
input. -/
theorem C7_counterexample :
    baseCfg.root_password = none ∧
    passwd_stdin ((chroot_main baseCfg okAll).1).trace = some .devnull := by decide

/-- C7, amended.  On a run of the isolated-root phase in which every
command succeeds: when no root password is configured, passwd is invoked
with no piped input — its standard input is the null device (any
interaction can only happen through the controlling terminal, outside its
standard input); when a password is configured, the credential line
root:password is piped as input to chpasswd. -/
theorem C7_thm (cfg : Config) (ok : Nat → Bool) (hok : ∀ i, ok i = true) :
    (cfg.root_password = none →
      Event.run ["passwd"] .devnull ∈ ((chroot_main cfg ok).1).trace) ∧
    (∀ pw, cfg.root_password = some pw →
      Event.run ["chpasswd"] (.piped ("root:" ++ pw)) ∈ ((chroot_main cfg ok).1).trace) := by
  refine ⟨fun h => ?_, fun pw h => ?_⟩ <;>
    cases hu : cfg.use_uefi <;>
      simp [chroot_main, chrootPipeline, seqM, runM, runPipedM, shellM, checkedWith,
            emit, passwordStep, bootloaderStep, hok, h, hu]

/-- C7, witness: the amended theorem applied to the no-password and
with-password configurations. -/
theorem C7_witness :
    Event.run ["passwd"] .devnull ∈ ((chroot_main baseCfg okAll).1).trace ∧
    Event.run ["chpasswd"] (.piped ("root:" ++ "hunter2")) ∈
      ((chroot_main cfgPw okAll).1).trace :=
  ⟨(C7_thm baseCfg okAll fun _ => rfl).1 rfl,
   (C7_thm cfgPw okAll fun _ => rfl).2 "hunter2" rfl⟩

/-- C8.  The normalization loop of generate_mirrors maps each line of the
response body independently through the per-line rule (a line starting with
the comment marker loses exactly its first character, every other line
passes through unchanged) and preserves the order and the number of
lines. -/
theorem C8_thm (lines : List String) :
    generate_mirrors_lines lines = lines.map norm_line ∧
    (generate_mirrors_lines lines).length = lines.length := by
  have hmap : generate_mirrors_lines lines = lines.map norm_line := by
    induction lines with
    | nil => rfl
    | cons l rest ih => simp [generate_mirrors_lines, norm_line, ih]
  exact ⟨hmap, by rw [hmap, List.length_map]⟩

/-- C9.  On the UEFI, xfs, /dev/sda configuration with every command
succeeding, the provisioning part of the host phase issues exactly: the
UEFI probe, the signature wipe, the sgdisk line creating partition 1 of
size 1G with type code ef00 and partition 2 spanning the largest remaining
space with type code 8304, the partition-table re-probe, the FAT32 format
of /dev/sda1 and the xfs format of /dev/sda2 — and completes without
error. -/
theorem C9_thm :
    hostPre baseCfg okAll ⟨[]⟩ =
      (⟨[.run ["efibootmgr"] .devnull,
         .run ["wipefs", "--all", "/dev/sda"] .devnull,
         .shell "sgdisk /dev/sda --zap-all --clear --new=1:0:+1G --typecode=1:ef00 --largest-new=2 --typecode=2:8304" true,
         .run ["partprobe", "/dev/sda"] .devnull,
         .run ["mkfs.fat", "-F32", "/dev/sda1"] .devnull,
         .run ["mkfs.xfs", "-f", "/dev/sda2"] .devnull]⟩, none) := by decide

/-- C10.  echo produces a redirectable result whose text is the argument
followed by exactly one appended newline (the length grows by one and the
last character is the newline); consequently the content of every file
overwrite event of any host-phase or isolated-root run ends with a
newline, since every such write is produced through echo.  The genuinely
reachable ones are the locale configuration and generation-list writes of
the isolated-root phase (the host phase dies at the mirror step before its
mirror-list and hostname writes), and the property is proved for all of
them uniformly. -/
theorem C10_thm :
    (∀ s : String, (echo s).str = s ++ "\n" ∧
      ((echo s).str).length = s.length + 1 ∧
      ((echo s).str).data.getLast? = some '\n') ∧
    (∀ (cfg : Config) (ok : Nat → Bool) (body : List String) (path c : String),
      Event.write_file path c ∈ ((usb_main cfg ok body).1).trace →
        c.data.getLast? = some '\n') ∧
    (∀ (cfg : Config) (ok : Nat → Bool) (path c : String),
      Event.write_file path c ∈ ((chroot_main cfg ok).1).trace →
        c.data.getLast? = some '\n') := by
  refine ⟨fun s => ?_, fun cfg ok body path c hmem => ?_, fun cfg ok path c hmem => ?_⟩
  · refine ⟨rfl, ?_, echo_getLast s⟩
    show ((echo s).str).data.length = s.data.length + 1
    rw [echo_data]
    simp
  · have hz : countEv badContent ((usb_main cfg ok body).1).trace = 0 := by
      refine usb_main_countEv_zero badContent cfg ok body ?_ ?_ rfl
      · unfold hostPre
        exact emitsNone_seqM _ _ _ (emitsNone_badContent_preflight cfg ok)
          (emitsNone_badContent_provision cfg ok)
      · exact emitsNone_badContent_hostTry cfg ok body
    have hf := eq_false_of_countEv_zero badContent _ hz hmem
    simpa [badContent] using hf
  · have hz : countEv badContent ((chroot_main cfg ok).1).trace = 0 := by
      have h := countEv_of_emitsNone _ _ (emitsNone_badContent_chrootPipeline cfg ok) ⟨[]⟩
      simpa [chroot_main, countEv] using h
    have hf := eq_false_of_countEv_zero badContent _ hz hmem
    simpa [badContent] using hf

/-- C10, witness: the locale-configuration overwrite of a concrete
isolated-root run, with its content ending in the newline. -/
theorem C10_witness :
    Event.write_file "/etc/locale.conf" ((echo "LANG=en_US.UTF-8").str) ∈
      ((chroot_main baseCfg okAll).1).trace ∧
    ((echo "LANG=en_US.UTF-8").str).data.getLast? = some '\n' :=
  ⟨by decide,
   C10_thm.2.2 baseCfg okAll "/etc/locale.conf" ((echo "LANG=en_US.UTF-8").str) (by decide)⟩

end Larch
